import Mathlib

/-!
Verification development for the phone-case customizer ("CaseCraft") core:
shape classifier, template builder, design state, transform pipeline and
compositor, shallowly embedded from `src/App.tsx` and
`src/components/PhoneEditor.tsx`.  Floating-point numbers of the source are
modelled as rationals; path-command strings are modelled structurally as
lists of path commands; the canvas 2D context is modelled as an explicit
trace of drawing operations, with the current-transform matrix represented
as a 2×3 affine matrix.
-/

namespace CaseCraft

/-- A 2×3 affine matrix in canvas convention `transform(a, b, c, d, e, f)`:
a point `(x, y)` maps to `(a·x + c·y + e, b·x + d·y + f)`. -/
structure Mat2d where
  a : ℚ
  b : ℚ
  c : ℚ
  d : ℚ
  e : ℚ
  f : ℚ
  deriving DecidableEq, Repr

/-- Matrix product `m * n` (first apply `n`, then `m`), as used by the
canvas context where each `translate`/`rotate`/`scale` call multiplies the
current transform on the right. -/
def Mat2d.mul (m n : Mat2d) : Mat2d :=
  { a := m.a * n.a + m.c * n.b
    b := m.b * n.a + m.d * n.b
    c := m.a * n.c + m.c * n.d
    d := m.b * n.c + m.d * n.d
    e := m.a * n.e + m.c * n.f + m.e
    f := m.b * n.e + m.d * n.f + m.f }

/-- Apply an affine matrix to a point. -/
def Mat2d.apply (m : Mat2d) (p : ℚ × ℚ) : ℚ × ℚ :=
  (m.a * p.1 + m.c * p.2 + m.e, m.b * p.1 + m.d * p.2 + m.f)

/-- The matrix of `ctx.translate(tx, ty)`. -/
def trM (tx ty : ℚ) : Mat2d := ⟨1, 0, 0, 1, tx, ty⟩

/-- The matrix of `ctx.rotate(θ)` in the y-down canvas frame
(clockwise-positive), parametrised by `co = cos θ` and `si = sin θ`. -/
def rotM (co si : ℚ) : Mat2d := ⟨co, si, -si, co, 0, 0⟩

/-- The matrix of `ctx.scale(sx, sy)`. -/
def scM (sx sy : ℚ) : Mat2d := ⟨sx, 0, 0, sy, 0, 0⟩

/-- One command of an SVG/canvas path string.  `M`/`L`/`Q`/`A` are the
absolute move/line/quadratic/arc commands; `hRel`/`vRel` are the relative
horizontal/vertical line commands `h`/`v`; `Z` closes the contour. -/
inductive PathCmd where
  | M (x y : ℚ)
  | L (x y : ℚ)
  | Q (cx cy x y : ℚ)
  | A (rx ry rot : ℚ) (largeArc sweep : Bool) (x y : ℚ)
  | hRel (dx : ℚ)
  | vRel (dy : ℚ)
  | Z
  deriving DecidableEq, Repr

/-- Tag of a recognised SVG shape element (`querySelectorAll('path, rect,
circle, ellipse')`). -/
inductive SVGTag where
  | rect
  | circle
  | ellipse
  | path
  deriving DecidableEq, Repr

/-- A flat SVG shape element as consumed by the classifier and the geometry
library: its tag, its geometry attributes (`none` = attribute absent, in
which case the source's `parseFloat(el.getAttribute(..) || '0')` defaults
to `0`), its path data (for `path` elements; absent data is the empty
path, matching `el.getAttribute('d') || ''`), and the computed `fill` and
`stroke` style strings that `window.getComputedStyle` resolves. -/
structure SVGElem where
  tag : SVGTag
  x : Option ℚ := none
  y : Option ℚ := none
  width : Option ℚ := none
  height : Option ℚ := none
  rx : Option ℚ := none
  ry : Option ℚ := none
  cx : Option ℚ := none
  cy : Option ℚ := none
  r : Option ℚ := none
  d : List PathCmd := []
  fill : String := ""
  stroke : String := ""
  deriving DecidableEq, Repr

/-- The semantic colour classes of `getShapeColorType`: magenta = outline
(class A), cyan = camera/cutout (class B), red = safe zone (class C). -/
inductive ColorType where
  | magenta
  | cyan
  | red
  | unknown
  deriving DecidableEq, Repr

/-- Maximal runs of decimal digits in a character list, each parsed as a
number — the digit-run extraction performed by the source's
`str.match(/\d+/g)` followed by `parseInt`.  The second argument carries
the value of the digit run currently being read. -/
def digitRunsAux : List Char → Option Nat → List Nat
  | [], none => []
  | [], some n => [n]
  | ch :: rest, acc =>
    if ch.isDigit then
      digitRunsAux rest (some ((acc.getD 0) * 10 + (ch.toNat - 48)))
    else
      match acc with
      | none => digitRunsAux rest none
      | some n => n :: digitRunsAux rest none

/-- All maximal digit runs of a string, parsed as numbers. -/
def digitRuns (s : String) : List Nat :=
  digitRunsAux s.toList none

/-- `parseRGB` of the source: extract the digit runs of a computed colour
string; if fewer than three are found the string does not parse, otherwise
the first three are the `(r, g, b)` components. -/
def parseRGB (s : String) : Option (Nat × Nat × Nat) :=
  match digitRuns s with
  | r :: g :: b :: _ => some (r, g, b)
  | _ => none

/-- The exact-match colour-class table of `getShapeColorType`: each class
accepts its pure hex value and one alternate print-standard value. -/
def classOfRGB : Nat × Nat × Nat → Option ColorType
  | (r, g, b) =>
    if (r = 255 ∧ g = 0 ∧ b = 255) ∨ (r = 236 ∧ g = 0 ∧ b = 140) then
      some ColorType.magenta
    else if (r = 0 ∧ g = 255 ∧ b = 255) ∨ (r = 0 ∧ g = 174 ∧ b = 239) then
      some ColorType.cyan
    else if (r = 255 ∧ g = 0 ∧ b = 0) ∨ (r = 237 ∧ g = 28 ∧ b = 36) then
      some ColorType.red
    else
      none

/-- The candidate loop of `getShapeColorType`: walk the `[fill, stroke]`
computed-style strings in order; skip falsy/`none`/`transparent` strings
and strings that fail `parseRGB`; the first candidate whose colour matches
one of the three classes decides the result; otherwise `unknown`. -/
def colorTypeOfCandidates : List String → ColorType
  | [] => ColorType.unknown
  | c :: rest =>
    if c = "" ∨ c = "none" ∨ c = "transparent" then
      colorTypeOfCandidates rest
    else
      match parseRGB c with
      | none => colorTypeOfCandidates rest
      | some rgb =>
        match classOfRGB rgb with
        | some t => t
        | none => colorTypeOfCandidates rest

/-- `getShapeColorType` of the source: classify a shape by its computed
fill and stroke colours, fill checked first. -/
def getShapeColorType (el : SVGElem) : ColorType :=
  colorTypeOfCandidates [el.fill, el.stroke]

/-- `shapeToPath` of the source: convert one SVG shape element to a path
command list.  A `path` element returns its own data; a `rect` with a
positive corner radius becomes the 8-segment rounded contour with each
radius clamped to half the corresponding side; a plain `rect` becomes a
4-segment polygon; `circle` and `ellipse` become 4-arc contours. -/
def shapeToPath (el : SVGElem) : List PathCmd :=
  match el.tag with
  | SVGTag.path => el.d
  | SVGTag.rect =>
    let x := el.x.getD 0
    let y := el.y.getD 0
    let width := el.width.getD 0
    let height := el.height.getD 0
    let rx := el.rx.getD 0
    let ry := (el.ry.or el.rx).getD 0
    if rx > 0 ∨ ry > 0 then
      let maxRx := min rx (width / 2)
      let maxRy := min ry (height / 2)
      [PathCmd.M (x + maxRx) y,
       PathCmd.L (x + width - maxRx) y,
       PathCmd.Q (x + width) y (x + width) (y + maxRy),
       PathCmd.L (x + width) (y + height - maxRy),
       PathCmd.Q (x + width) (y + height) (x + width - maxRx) (y + height),
       PathCmd.L (x + maxRx) (y + height),
       PathCmd.Q x (y + height) x (y + height - maxRy),
       PathCmd.L x (y + maxRy),
       PathCmd.Q x y (x + maxRx) y,
       PathCmd.Z]
    else
      [PathCmd.M x y,
       PathCmd.L (x + width) y,
       PathCmd.L (x + width) (y + height),
       PathCmd.L x (y + height),
       PathCmd.Z]
  | SVGTag.circle =>
    let cx := el.cx.getD 0
    let cy := el.cy.getD 0
    let r := el.r.getD 0
    [PathCmd.M cx (cy - r),
     PathCmd.A r r 0 false true (cx + r) cy,
     PathCmd.A r r 0 false true cx (cy + r),
     PathCmd.A r r 0 false true (cx - r) cy,
     PathCmd.A r r 0 false true cx (cy - r),
     PathCmd.Z]
  | SVGTag.ellipse =>
    let cx := el.cx.getD 0
    let cy := el.cy.getD 0
    let rx := el.rx.getD 0
    let ry := el.ry.getD 0
    [PathCmd.M cx (cy - ry),
     PathCmd.A rx ry 0 false true (cx + rx) cy,
     PathCmd.A rx ry 0 false true cx (cy + ry),
     PathCmd.A rx ry 0 false true (cx - rx) cy,
     PathCmd.A rx ry 0 false true cx (cy - ry),
     PathCmd.Z]

/-- Result of the classifier loop of `processSingleTemplate`: the single
outline winner (last magenta match, if any), and the camera and safe-zone
shape groups in input order. -/
structure Classified where
  caseElement : Option SVGElem
  cameraElements : List SVGElem
  safeZoneElements : List SVGElem
  deriving DecidableEq, Repr

/-- One step of the `shapeElements.forEach` classification loop. -/
def classifyStep (acc : Classified) (el : SVGElem) : Classified :=
  match getShapeColorType el with
  | ColorType.magenta => { acc with caseElement := some el }
  | ColorType.cyan => { acc with cameraElements := acc.cameraElements ++ [el] }
  | ColorType.red => { acc with safeZoneElements := acc.safeZoneElements ++ [el] }
  | ColorType.unknown => acc

/-- The classification loop of `processSingleTemplate`, over the document's
shape elements in input order. -/
def classifyShapes (shapes : List SVGElem) : Classified :=
  shapes.foldl classifyStep ⟨none, [], []⟩

/-- An axis-aligned bounding box as returned by the host's `getBBox()`. -/
structure BBox where
  x : ℚ
  y : ℚ
  width : ℚ
  height : ℚ
  deriving DecidableEq, Repr

/-- A built phone-case template (`PhoneModel` of `src/types.ts`), without
the identity/naming fields (`id`, `name`, `brand`), which are derived from
the file name and a timestamp and carry no geometry.  `minX`/`minY` are
declared optional in the source type but are always supplied by the
builder; the compositor's `model.minX ?? 0` default is therefore the
identity and they are modelled as total fields. -/
structure PhoneModel where
  width : ℚ
  height : ℚ
  minX : ℚ
  minY : ℚ
  screenRatio : ℚ
  svgPath : List PathCmd
  cameraPath : List PathCmd
  safeZonePath : List PathCmd
  deriving DecidableEq, Repr

/-- The fatal diagnostic of `processSingleTemplate` when no magenta
(class-A / outline) shape is found. -/
def magentaErrMsg : String :=
  "Chyba šablóny: Nepodarilo sa nájsť Magentový tvar (#ec008c alebo #ff00ff). Skontrolujte či má tvar správnu farbu výplne alebo obrysu."

/-- The fatal diagnostic of `processSingleTemplate` when the outline shape
converts to an empty path. -/
def convertErrMsg : String :=
  "Chyba: Nepodarilo sa konvertovať tvar na cestu. Skontrolujte, či SVG obsahuje platný tvar."

/-- The path-accumulation loop for camera and safe-zone shapes: each shape
whose conversion is non-empty is appended to the running union. -/
def combinePaths (els : List SVGElem) : List PathCmd :=
  els.foldl
    (fun acc el =>
      let p := shapeToPath el
      if p ≠ [] then acc ++ p else acc)
    []

/-- The synthesized fallback safe zone of `processSingleTemplate`: an
inset rectangle at 5% of the outline bounding-box width from each edge,
written with relative `h`/`v` commands as in the source. -/
def fallbackSafeZone (bbox : BBox) : List PathCmd :=
  let inset := bbox.width * (5 / 100)
  [PathCmd.M (bbox.x + inset) (bbox.y + inset),
   PathCmd.hRel (bbox.width - 2 * inset),
   PathCmd.vRel (bbox.height - 2 * inset),
   PathCmd.hRel (-(bbox.width - 2 * inset)),
   PathCmd.Z]

/-- `processSingleTemplate` of the source (its pure core, after the SVG
document has been parsed into a flat shape list): classify the shapes,
fail without any model if no outline (magenta) shape exists, take the host
bounding box `hostBBox` of the chosen outline element (the browser's
`getBBox()`, passed as an oracle), convert the outline to a path (fail if
empty), union the camera paths, union the safe-zone paths or synthesize
the fallback inset rectangle, and assemble the `PhoneModel`. -/
def processSingleTemplate (hostBBox : SVGElem → BBox) (shapes : List SVGElem) :
    Except String PhoneModel :=
  let cls := classifyShapes shapes
  match cls.caseElement with
  | none => Except.error magentaErrMsg
  | some caseEl =>
    let bbox := hostBBox caseEl
    let casePath := shapeToPath caseEl
    if casePath = [] then
      Except.error convertErrMsg
    else
      let combinedCameraPath := combinePaths cls.cameraElements
      let safeZonePath :=
        if cls.safeZoneElements ≠ [] then combinePaths cls.safeZoneElements
        else fallbackSafeZone bbox
      Except.ok
        { width := bbox.width
          height := bbox.height
          minX := bbox.x
          minY := bbox.y
          screenRatio := bbox.width / bbox.height
          svgPath := casePath
          cameraPath := combinedCameraPath
          safeZonePath := safeZonePath }

/-- One text layer of a design (`TextElement` of `src/types.ts`). -/
structure TextElement where
  text : String
  fontFamily : String
  x : ℚ
  y : ℚ
  scale : ℚ
  rotation : ℚ
  fontSize : ℚ
  color : String
  deriving DecidableEq, Repr

/-- A customization session (`DesignState` of `src/types.ts`).  `imgWidth`
and `imgHeight` are optional in the source type; `textElements` is
optional there and its absence is modelled as the empty list. -/
structure DesignState where
  scale : ℚ
  x : ℚ
  y : ℚ
  rotation : ℚ
  imageSrc : Option String
  imgWidth : Option ℚ
  imgHeight : Option ℚ
  textElements : List TextElement
  deriving DecidableEq, Repr

/-- `handleAutoFill` of the source ("fit to case"): if no image is loaded,
its natural dimensions are missing or zero, or no model is selected (the
JavaScript falsiness guard), the design is left unchanged; otherwise the
scale becomes the cover fit `max(width / imgWidth, height / imgHeight)`
and offset and rotation are reset to zero. -/
def handleAutoFill (model? : Option PhoneModel) (d : DesignState) : DesignState :=
  match model?, d.imageSrc, d.imgWidth, d.imgHeight with
  | some m, some src, some w, some h =>
    if src = "" ∨ w = 0 ∨ h = 0 then d
    else
      { d with
        scale := max (m.width / w) (m.height / h)
        x := 0
        y := 0
        rotation := 0 }
  | _, _, _, _ => d

/-- `Math.sign` of JavaScript on a rational. -/
def jsSign (q : ℚ) : ℚ :=
  if q > 0 then 1 else if q < 0 then -1 else 0

/-- One interactive zoom gesture event of `PhoneEditor`:
a mouse-wheel tick (`handleWheel`, with the modifier state and the wheel
delta), or a two-finger pinch move (`handleTouchMove`, with the finger
distance at gesture start, the current finger distance, and the design
scale captured at gesture start). -/
inductive ZoomOp where
  | wheel (ctrlOrMeta : Bool) (deltaY : ℚ)
  | pinch (startDistance currentDistance initialScale : ℚ)
  deriving DecidableEq, Repr

/-- Applying one zoom event to a design, from `handleWheel` and the pinch
branch of `handleTouchMove`: both compute a candidate scale and clamp it
with `Math.max(0.1, Math.min(10, ·))`. -/
def applyZoom (d : DesignState) : ZoomOp → DesignState
  | ZoomOp.wheel ctrlOrMeta deltaY =>
    let scaleFactor : ℚ := if ctrlOrMeta then 0.1 else 0.05
    let delta := -(jsSign deltaY)
    { d with scale := max 0.1 (min 10 (d.scale + delta * scaleFactor)) }
  | ZoomOp.pinch startDistance currentDistance initialScale =>
    let ratio := currentDistance / startDistance
    { d with scale := max 0.1 (min 10 (initialScale * ratio)) }

/-- A sequence of interactive zoom events applied in order. -/
def applyZoomOps (d : DesignState) (ops : List ZoomOp) : DesignState :=
  ops.foldl applyZoom d

/-- One operation of the compositor's drawing trace: canvas sizing, the
2D-context transform and state calls, clipping, image and text drawing,
path fills/strokes (used by the on-screen overlay), and final encoding.
`rotateDeg θ` stands for `ctx.rotate(θ·π/180)`. -/
inductive DrawOp where
  | setCanvasSize (w h : ℚ)
  | scaleCtx (sx sy : ℚ)
  | translateCtx (tx ty : ℚ)
  | rotateDeg (deg : ℚ)
  | saveCtx
  | restoreCtx
  | clipPath (p : List PathCmd)
  | drawImageAt (dx dy : ℚ)
  | setFont (weight : ℕ) (size : ℚ) (family : String)
  | setFillStyle (color : String)
  | setTextAlign (v : String)
  | setTextBaseline (v : String)
  | fillTextAt (text : String) (x y : ℚ)
  | fillPathOp (p : List PathCmd)
  | strokePathOp (p : List PathCmd)
  | encodeImage (mime : String) (quality : ℚ)
  deriving DecidableEq, Repr

/-- The fixed supersampling factor of `generatePrintFile`
(`const scaleFactor = 2.5`). -/
def printScaleFactor : ℚ := 2.5

/-- The drawing trace of one text layer inside `generatePrintFile`:
translate to the case centre plus the layer offset, rotate, set the font
(weight 600, base size times layer scale), fill colour (defaulting to
`#1e293b` when falsy), centre anchoring, and draw the text at the origin,
all between a save/restore pair. -/
def textLayerOps (c : ℚ × ℚ) (t : TextElement) : List DrawOp :=
  [DrawOp.saveCtx,
   DrawOp.translateCtx (c.1 + t.x) (c.2 + t.y),
   DrawOp.rotateDeg t.rotation,
   DrawOp.setFont 600 (t.fontSize * t.scale) t.fontFamily,
   DrawOp.setFillStyle (if t.color = "" then "#1e293b" else t.color),
   DrawOp.setTextAlign "center",
   DrawOp.setTextBaseline "middle",
   DrawOp.fillTextAt t.text 0 0,
   DrawOp.restoreCtx]

/-- The canvas-setup and image-layer block of `generatePrintFile`, for an
image of natural pixel size `imgW × imgH`: size the canvas to
`width·k × height·k`; scale everything by `k`; normalize the frame by
`translate(-minX, -minY)`; clip to the outline path; translate to the
case centre, then by the design offset; rotate; scale; draw the image
centred at the origin; restore. -/
def printBodyOps (m : PhoneModel) (d : DesignState) (imgW imgH : ℚ) :
    List DrawOp :=
  let cx := m.minX + m.width / 2
  let cy := m.minY + m.height / 2
  [DrawOp.setCanvasSize (m.width * printScaleFactor) (m.height * printScaleFactor),
   DrawOp.scaleCtx printScaleFactor printScaleFactor,
   DrawOp.translateCtx (-m.minX) (-m.minY),
   DrawOp.saveCtx,
   DrawOp.clipPath m.svgPath,
   DrawOp.translateCtx cx cy,
   DrawOp.translateCtx d.x d.y,
   DrawOp.rotateDeg d.rotation,
   DrawOp.scaleCtx d.scale d.scale,
   DrawOp.drawImageAt (-(imgW / 2)) (-(imgH / 2)),
   DrawOp.restoreCtx]

/-- The text block of `generatePrintFile`: present only when text layers
exist, clipped to the outline path again. -/
def printTextBlockOps (m : PhoneModel) (d : DesignState) : List DrawOp :=
  let cx := m.minX + m.width / 2
  let cy := m.minY + m.height / 2
  if d.textElements.isEmpty then []
  else
    [DrawOp.saveCtx, DrawOp.clipPath m.svgPath]
    ++ (d.textElements.map (textLayerOps (cx, cy))).flatten
    ++ [DrawOp.restoreCtx]

/-- The full drawing trace of `generatePrintFile` on the success path
(the image decoded): canvas setup and image layer, then the text block,
then the JPEG encoding of the canvas at quality 0.8. -/
def generatePrintOps (m : PhoneModel) (d : DesignState) (imgW imgH : ℚ) :
    List DrawOp :=
  printBodyOps m d imgW imgH
  ++ printTextBlockOps m d
  ++ [DrawOp.encodeImage "image/jpeg" 0.8]

/-- The overlay layer of the on-screen editor (`PhoneEditor`, "LAYER 3"),
drawn above the image and text layers: the unsafe-zone pattern fill of the
outline (present when a safe zone exists), the outline border stroke, the
camera path filled opaque on top, the gloss fill of the outline, and the
dashed safe-zone stroke. -/
def editorOverlayOps (m : PhoneModel) : List DrawOp :=
  (if m.safeZonePath.isEmpty then [] else [DrawOp.fillPathOp m.svgPath])
  ++ [DrawOp.strokePathOp m.svgPath,
      DrawOp.fillPathOp m.cameraPath,
      DrawOp.fillPathOp m.svgPath]
  ++ (if m.safeZonePath.isEmpty then [] else [DrawOp.strokePathOp m.safeZonePath])

/-- The image layer's current-transform matrix inside `generatePrintFile`,
in the template-native frame (after the global supersampling scale and the
`translate(-minX, -minY)` normalization): translate to the case centre,
translate by the design offset, rotate (`co`/`si` standing for the cosine
and sine of the rotation angle), then scale uniformly — in the order of
the `ctx` calls. -/
def imageLayerCTM (m : PhoneModel) (d : DesignState) (co si : ℚ) : Mat2d :=
  (((trM (m.minX + m.width / 2) (m.minY + m.height / 2)).mul
      (trM d.x d.y)).mul
    (rotM co si)).mul
  (scM d.scale d.scale)

/-- Where image pixel `p` lands in template-native coordinates, from the
source's `ctx.drawImage(img, -img.width / 2, -img.height / 2)`: pixel
`(u, v)` sits at user-space point `(u - imgW/2, v - imgH/2)`, mapped
through the image layer's transform. -/
def codeImagePixelPos (m : PhoneModel) (d : DesignState) (co si imgW imgH : ℚ)
    (p : ℚ × ℚ) : ℚ × ℚ :=
  (imageLayerCTM m d co si).apply (p.1 - imgW / 2, p.2 - imgH / 2)

/-- The spec's per-layer affine composition, written from its words:
"translate to `C`; translate by the layer's `(x, y)` offset; rotate by the
layer's `rotationDegrees`; scale uniformly by the layer's `scale`; finally
translate by `(-naturalWidth/2, -naturalHeight/2)` before drawing the
asset at its natural size". -/
def specImageLayerCTM (m : PhoneModel) (d : DesignState) (co si imgW imgH : ℚ) :
    Mat2d :=
  ((((trM (m.minX + m.width / 2) (m.minY + m.height / 2)).mul
       (trM d.x d.y)).mul
     (rotM co si)).mul
   (scM d.scale d.scale)).mul
  (trM (-(imgW / 2)) (-(imgH / 2)))

/-- Where image pixel `p` lands under the spec's composition: the asset is
drawn at natural size from the transformed origin. -/
def specImagePixelPos (m : PhoneModel) (d : DesignState) (co si imgW imgH : ℚ)
    (p : ℚ × ℚ) : ℚ × ℚ :=
  (specImageLayerCTM m d co si imgW imgH).apply p

/-- The path of an axis-aligned rectangle of extent `w × h` whose top-left
corner is `(x, y)`, in the relative-command form `M x y h w v h h -w Z`
used by the synthesized safe zone. -/
def insetRectCmds (x y w h : ℚ) : List PathCmd :=
  [PathCmd.M x y, PathCmd.hRel w, PathCmd.vRel h, PathCmd.hRel (-w), PathCmd.Z]

/-- The spec's rounded-rectangle contour, written from its words: an
8-segment closed contour alternating straight edges and quarter-round
corners, clockwise from the top edge, with corner radii `rcx` (along x)
and `rcy` (along y). -/
def roundedRectContour (x y w h rcx rcy : ℚ) : List PathCmd :=
  [PathCmd.M (x + rcx) y,
   PathCmd.L (x + w - rcx) y,
   PathCmd.Q (x + w) y (x + w) (y + rcy),
   PathCmd.L (x + w) (y + h - rcy),
   PathCmd.Q (x + w) (y + h) (x + w - rcx) (y + h),
   PathCmd.L (x + rcx) (y + h),
   PathCmd.Q x (y + h) x (y + h - rcy),
   PathCmd.L x (y + rcy),
   PathCmd.Q x y (x + rcx) y,
   PathCmd.Z]

/-- A rectangle element with the given geometry attributes and computed
colours. -/
def mkRect (x y w h : ℚ) (rx ry : Option ℚ) (fill stroke : String) : SVGElem :=
  { tag := SVGTag.rect
    x := some x
    y := some y
    width := some w
    height := some h
    rx := rx
    ry := ry
    fill := fill
    stroke := stroke }

/-- A circle element with the given geometry attributes and computed
colours. -/
def mkCircle (cx cy r : ℚ) (fill stroke : String) : SVGElem :=
  { tag := SVGTag.circle
    cx := some cx
    cy := some cy
    r := some r
    fill := fill
    stroke := stroke }

/-- The spec's one-candidate matching relation, written from its words:
a colour string matches a class when it parses to an RGB triple accepted
by that class. -/
def matchOfColor (s : String) : Option ColorType :=
  (parseRGB s).bind classOfRGB

/-- Whether a shape is classified into the outline (class-A) colour
class. -/
def isMagenta (el : SVGElem) : Bool :=
  getShapeColorType el == ColorType.magenta

/-- Left-biased choice on options (the semantics of overwriting an
accumulator, and of "the first matching candidate wins"). -/
def optOr : Option α → Option α → Option α
  | some a, _ => some a
  | none, b => b

/-- Whether a drawing operation is a raster-encoding step. -/
def isEncodeOp : DrawOp → Bool
  | DrawOp.encodeImage _ _ => true
  | _ => false

/-- The class-A rectangle of the template-builder scenario: `x=0, y=0,
w=100, h=200`, pure-magenta fill. -/
def rectA : SVGElem :=
  mkRect 0 0 100 200 none none "rgb(255, 0, 255)" "none"

/-- The class-B circle of the template-builder scenario: `cx=80, cy=40,
r=10`, pure-cyan fill. -/
def circleB : SVGElem :=
  mkCircle 80 40 10 "rgb(0, 255, 255)" "none"

/-- A concrete bounding-box oracle whose value on the scenario's outline
rectangle is its true bounding box. -/
def hostBBox0 : SVGElem → BBox := fun _ => ⟨0, 0, 100, 200⟩

/-- A concrete template: the scenario's outline rectangle, camera circle,
and synthesized safe zone. -/
def sampleModel : PhoneModel :=
  { width := 100
    height := 200
    minX := 0
    minY := 0
    screenRatio := 1 / 2
    svgPath := shapeToPath rectA
    cameraPath := shapeToPath circleB
    safeZonePath := fallbackSafeZone ⟨0, 0, 100, 200⟩ }

/-- A concrete design with a loaded image and one text layer. -/
def sampleDesign : DesignState :=
  { scale := 50
    x := 3
    y := -4
    rotation := 0
    imageSrc := some "data:image/jpeg;base64,AAAA"
    imgWidth := some 400
    imgHeight := some 300
    textElements := [{ text := "hello"
                       fontFamily := "Inter"
                       x := 0
                       y := 20
                       scale := 1
                       rotation := 15
                       fontSize := 24
                       color := "#1e293b" }] }

/-! ### Helper lemmas -/

theorem getLast?_cons_optOr (a : α) (l : List α) :
    (a :: l).getLast? = optOr l.getLast? (some a) := by
  induction l generalizing a with
  | nil => rfl
  | cons b t ih =>
    rw [List.getLast?_cons_cons, ih b]
    cases t.getLast? <;> rfl

/-- The outline accumulator of the classification loop is the last magenta
shape of the input, falling back to the accumulator's initial value. -/
theorem caseElement_foldl (shapes : List SVGElem) :
    ∀ acc : Classified,
      (shapes.foldl classifyStep acc).caseElement =
        optOr (shapes.filter isMagenta).getLast? acc.caseElement := by
  induction shapes with
  | nil => intro acc; rfl
  | cons el rest ih =>
    intro acc
    rw [List.foldl_cons, ih]
    by_cases h : isMagenta el = true
    · rw [List.filter_cons_of_pos h, getLast?_cons_optOr]
      have hm : getShapeColorType el = ColorType.magenta := by
        simpa [isMagenta] using h
      have hstep : (classifyStep acc el).caseElement = some el := by
        simp [classifyStep, hm]
      rw [hstep]
      cases (rest.filter isMagenta).getLast? <;> rfl
    · rw [List.filter_cons_of_neg h]
      have hm : ¬getShapeColorType el = ColorType.magenta := by
        simpa [isMagenta] using h
      have hstep : (classifyStep acc el).caseElement = acc.caseElement := by
        cases hc : getShapeColorType el
        · exact absurd hc hm
        · simp [classifyStep, hc]
        · simp [classifyStep, hc]
        · simp [classifyStep, hc]
      rw [hstep]

/-! ### Claim theorems -/

/-- **C3.** For every ordered list of input shapes with more than one
class-A (magenta) match, the classifier deterministically selects the last
class-A match in input order as the outline winner, silently discarding
all earlier ones. -/
theorem classifier_last_A_match_wins (shapes : List SVGElem)
    (h : 1 < (shapes.filter isMagenta).length) :
    (classifyShapes shapes).caseElement = (shapes.filter isMagenta).getLast? := by
  rw [classifyShapes, caseElement_foldl]
  cases hg : (shapes.filter isMagenta).getLast? with
  | some v => rfl
  | none =>
    rw [List.getLast?_eq_none_iff] at hg
    rw [hg] at h
    simp at h

/-- Witness for C3: a document with two magenta rectangles classifies the
second (later) one as the outline. -/
theorem classifier_last_A_match_wins_witness :
    1 < (([mkRect 0 0 1 1 none none "rgb(255, 0, 255)" "none",
           mkRect 5 5 1 1 none none "rgb(236, 0, 140)" "none"].filter isMagenta).length) ∧
    (classifyShapes
        [mkRect 0 0 1 1 none none "rgb(255, 0, 255)" "none",
         mkRect 5 5 1 1 none none "rgb(236, 0, 140)" "none"]).caseElement =
      some (mkRect 5 5 1 1 none none "rgb(236, 0, 140)" "none") := by
  refine ⟨by decide, ?_⟩
  rw [classifier_last_A_match_wins _ (by decide)]
  decide

/-- **C4.** A template document with zero class-A (magenta) shapes is
rejected with the human-readable diagnostic naming the missing magenta
convention, and no `PhoneModel` at all is produced. -/
theorem missing_outline_rejected (hostBBox : SVGElem → BBox)
    (shapes : List SVGElem)
    (h : ∀ el ∈ shapes, getShapeColorType el ≠ ColorType.magenta) :
    processSingleTemplate hostBBox shapes = Except.error magentaErrMsg ∧
    ∀ m : PhoneModel, processSingleTemplate hostBBox shapes ≠ Except.ok m := by
  have hfil : shapes.filter isMagenta = [] := by
    rw [List.filter_eq_nil_iff]
    intro el hel
    simp [isMagenta]
    exact h el hel
  have hcase : (classifyShapes shapes).caseElement = none := by
    rw [classifyShapes, caseElement_foldl, hfil]
    rfl
  have herr : processSingleTemplate hostBBox shapes = Except.error magentaErrMsg := by
    simp [processSingleTemplate, hcase]
  exact ⟨herr, fun m hm => by rw [herr] at hm; exact Except.noConfusion hm⟩

/-- Witness for C4: a document holding only a cyan circle is rejected with
the magenta diagnostic and yields no model. -/
theorem missing_outline_rejected_witness :
    processSingleTemplate hostBBox0 [circleB] = Except.error magentaErrMsg ∧
    ∀ m : PhoneModel, processSingleTemplate hostBBox0 [circleB] ≠ Except.ok m :=
  missing_outline_rejected hostBBox0 [circleB] (by decide)

/-- Evaluation of the template builder on the scenario document, for an
arbitrary bounding-box oracle: the model's extent fields come from the
oracle's answer on the outline rectangle, the outline and camera shapes
are converted to paths, and the safe zone is synthesized from the
bounding box. -/
theorem processSingleTemplate_scenario_eval (hostBBox : SVGElem → BBox) :
    processSingleTemplate hostBBox [rectA, circleB] =
      Except.ok
        { width := (hostBBox rectA).width
          height := (hostBBox rectA).height
          minX := (hostBBox rectA).x
          minY := (hostBBox rectA).y
          screenRatio := (hostBBox rectA).width / (hostBBox rectA).height
          svgPath := shapeToPath rectA
          cameraPath := shapeToPath circleB
          safeZonePath := fallbackSafeZone (hostBBox rectA) } := rfl

/-- **C2 (amended).** The scenario document — one class-A rectangle
`x=0, y=0, w=100, h=200`, one class-B circle `cx=80, cy=40, r=10`, no
class-C shape — builds a model with `width=100, height=200, minX=0,
minY=0`, a non-empty cutout path, and a synthesized safe zone describing
the inset rectangle `x=5, y=5, w=90, h=190` (the 5%-of-width inset `5`
applied symmetrically on both axes). -/
theorem template_scenario_builds_model (hostBBox : SVGElem → BBox)
    (hbb : hostBBox rectA = ⟨0, 0, 100, 200⟩) :
    ∃ M : PhoneModel,
      processSingleTemplate hostBBox [rectA, circleB] = Except.ok M ∧
      M.width = 100 ∧ M.height = 200 ∧ M.minX = 0 ∧ M.minY = 0 ∧
      M.cameraPath ≠ [] ∧
      M.safeZonePath = insetRectCmds 5 5 90 190 := by
  refine ⟨_, processSingleTemplate_scenario_eval hostBBox, ?_, ?_, ?_, ?_, ?_, ?_⟩ <;>
    rw [hbb]
  · simp [circleB, mkCircle, shapeToPath]
  · norm_num [fallbackSafeZone, insetRectCmds]

/-- Counterexample for C2 as stated: the synthesized safe zone of the
scenario is the inset rectangle `x=5, y=5, w=90, h=190`, not the claimed
`x=5, y=10, w=90, h=180` — the width-derived inset `5` is applied on both
axes, so the vertical inset is `5`, not `10`. -/
theorem template_scenario_safe_zone_cex :
    (processSingleTemplate hostBBox0 [rectA, circleB]).toOption.map
        (fun M => M.safeZonePath) = some (insetRectCmds 5 5 90 190) ∧
    ¬ (processSingleTemplate hostBBox0 [rectA, circleB]).toOption.map
        (fun M => M.safeZonePath) = some (insetRectCmds 5 10 90 180) := by
  rw [processSingleTemplate_scenario_eval hostBBox0]
  constructor
  · norm_num [hostBBox0, fallbackSafeZone, insetRectCmds, Except.toOption]
  · norm_num [hostBBox0, fallbackSafeZone, insetRectCmds, Except.toOption]

/-- Witness for C2 (amended): the concrete oracle returning the true
bounding box of the scenario rectangle. -/
theorem template_scenario_builds_model_witness :
    hostBBox0 rectA = ⟨0, 0, 100, 200⟩ ∧
    ∃ M : PhoneModel,
      processSingleTemplate hostBBox0 [rectA, circleB] = Except.ok M ∧
      M.width = 100 ∧ M.height = 200 ∧ M.minX = 0 ∧ M.minY = 0 ∧
      M.cameraPath ≠ [] ∧
      M.safeZonePath = insetRectCmds 5 5 90 190 :=
  ⟨rfl, template_scenario_builds_model hostBBox0 rfl⟩

/-- **C5 (amended).** A rectangle with a positive declared corner radius
converts to the 8-segment closed contour alternating straight edges and
quarter-round corners, with the x-radius clamped to `min(rx, width/2)`
and the y-radius clamped to `min(ry, height/2)` independently per axis
(not to half of the shorter side for both). -/
theorem rounded_rect_8_segments_per_axis_clamp (x y w h rx ry : ℚ)
    (fill stroke : String) (hpos : rx > 0 ∨ ry > 0) :
    shapeToPath (mkRect x y w h (some rx) (some ry) fill stroke) =
      roundedRectContour x y w h (min rx (w / 2)) (min ry (h / 2)) := by
  simp only [shapeToPath, mkRect, Option.getD_some, Option.or_some]
  rw [if_pos hpos]
  rfl

/-- Counterexample for C5 as stated: for the rectangle `0 0 100 200` with
declared radius `60`, the produced path is the contour with x-radius `50`
and y-radius `60`; it is not the contour using
`min(60, half of the shorter side) = 50` for both radii. -/
theorem rounded_rect_shorter_side_clamp_cex :
    shapeToPath (mkRect 0 0 100 200 (some 60) (some 60) "" "") ≠
      roundedRectContour 0 0 100 200 (min 60 (min 100 200 / 2))
        (min 60 (min 100 200 / 2)) ∧
    shapeToPath (mkRect 0 0 100 200 (some 60) (some 60) "" "") =
      roundedRectContour 0 0 100 200 50 60 := by
  constructor
  · norm_num [shapeToPath, mkRect, roundedRectContour, min_def]
  · norm_num [shapeToPath, mkRect, roundedRectContour, min_def]

/-- Witness for C5 (amended): the declared radius `60` on a `100 × 200`
rectangle clamps to x-radius `50` and y-radius `60`. -/
theorem rounded_rect_8_segments_witness :
    ((60 : ℚ) > 0 ∨ (60 : ℚ) > 0) ∧
    shapeToPath (mkRect 0 0 100 200 (some 60) (some 60) "" "") =
      roundedRectContour 0 0 100 200 (min 60 (100 / 2)) (min 60 (200 / 2)) :=
  ⟨Or.inl (by norm_num),
   rounded_rect_8_segments_per_axis_clamp 0 0 100 200 60 60 "" "" (Or.inl (by norm_num))⟩

/-- **C6.** The "fit to case" auto-fit sets
`scale = max(width / naturalImageWidth, height / naturalImageHeight)`
(cover fit) and resets offset and rotation to zero; and it is idempotent:
applying it twice produces the same `DesignState` as applying it once
(unconditionally, including the guarded no-image / no-model cases). -/
theorem autofit_cover_and_idempotent :
    (∀ (m : PhoneModel) (d : DesignState) (src : String) (w h : ℚ),
        d.imageSrc = some src → src ≠ "" →
        d.imgWidth = some w → w ≠ 0 →
        d.imgHeight = some h → h ≠ 0 →
        (handleAutoFill (some m) d).scale = max (m.width / w) (m.height / h) ∧
        (handleAutoFill (some m) d).x = 0 ∧
        (handleAutoFill (some m) d).y = 0 ∧
        (handleAutoFill (some m) d).rotation = 0) ∧
    (∀ (model? : Option PhoneModel) (d : DesignState),
        handleAutoFill model? (handleAutoFill model? d) = handleAutoFill model? d) := by
  constructor
  · intro m d src w h hsrc hsrc0 hw hw0 hh hh0
    simp [handleAutoFill, hsrc, hw, hh, hsrc0, hw0, hh0]
  · intro model? d
    rcases model? with _ | m
    · rfl
    rcases d with ⟨sc, dx, dy, rot, src?, w?, h?, texts⟩
    rcases src? with _ | src
    · rfl
    rcases w? with _ | w
    · rfl
    rcases h? with _ | h
    · rfl
    by_cases hg : src = "" ∨ w = 0 ∨ h = 0
    · simp [handleAutoFill, hg]
    · simp [handleAutoFill, hg]

/-- Witness for C6: a concrete design with a loaded 400 × 300 image on
the scenario model, whose cover fit is `max(100/400, 200/300) = 2/3`. -/
theorem autofit_cover_witness :
    (handleAutoFill (some sampleModel) sampleDesign).scale = max (100 / 400) (200 / 300) ∧
    (handleAutoFill (some sampleModel) sampleDesign).x = 0 ∧
    (handleAutoFill (some sampleModel) sampleDesign).y = 0 ∧
    (handleAutoFill (some sampleModel) sampleDesign).rotation = 0 :=
  autofit_cover_and_idempotent.1 sampleModel sampleDesign
    "data:image/jpeg;base64,AAAA" 400 300 rfl (by simp) rfl (by norm_num) rfl (by norm_num)

/-- **C1.** The compositor's image-layer transform is, in template-native
coordinates, exactly the spec's composition order — translate to the case
centre `C = (minX + width/2, minY + height/2)`, translate by the layer
offset, rotate, scale uniformly, translate by
`(-naturalWidth/2, -naturalHeight/2)`, draw at natural size — and in the
scenario (`scale=1, x=0, y=0, rotation=0`, model `100 × 200` at origin,
rotation cosine `1` and sine `0`) the image's natural centre lands at
`(50, 100)`. -/
theorem compositor_image_transform_order :
    (∀ (m : PhoneModel) (d : DesignState) (co si imgW imgH : ℚ) (p : ℚ × ℚ),
        codeImagePixelPos m d co si imgW imgH p =
          specImagePixelPos m d co si imgW imgH p) ∧
    (∀ imgW imgH : ℚ,
        codeImagePixelPos
          { width := 100, height := 200, minX := 0, minY := 0,
            screenRatio := 1 / 2, svgPath := [], cameraPath := [],
            safeZonePath := [] }
          { scale := 1, x := 0, y := 0, rotation := 0,
            imageSrc := some "img", imgWidth := some imgW,
            imgHeight := some imgH, textElements := [] }
          1 0 imgW imgH (imgW / 2, imgH / 2) = (50, 100)) := by
  constructor
  · intro m d co si imgW imgH p
    simp only [codeImagePixelPos, specImagePixelPos, imageLayerCTM,
      specImageLayerCTM, Mat2d.apply, Mat2d.mul, trM, rotM, scM,
      Prod.mk.injEq]
    constructor <;> ring
  · intro imgW imgH
    simp only [codeImagePixelPos, imageLayerCTM, Mat2d.apply, Mat2d.mul,
      trM, rotM, scM, Prod.mk.injEq]
    constructor <;> ring_nf

/-- No text-layer trace contains an encoding operation. -/
theorem countP_encode_textOps (c : ℚ × ℚ) (ts : List TextElement) :
    ((ts.map (textLayerOps c)).flatten.countP isEncodeOp) = 0 := by
  induction ts with
  | nil => rfl
  | cons t ts ih =>
    simp [textLayerOps, List.countP_append, List.countP_cons, isEncodeOp, ih]

/-- **C9.** For every model and design whose image decodes, the compositor
sizes its raster to exactly `width · k × height · k` with the fixed
supersampling factor `k = 2.5` (the first operation of the trace), and
ends with exactly one lossy encoding, as JPEG at quality 0.8. -/
theorem print_raster_size_and_quality (m : PhoneModel) (d : DesignState)
    (imgW imgH : ℚ) :
    (generatePrintOps m d imgW imgH).head? =
      some (DrawOp.setCanvasSize (m.width * 2.5) (m.height * 2.5)) ∧
    (generatePrintOps m d imgW imgH).getLast? =
      some (DrawOp.encodeImage "image/jpeg" 0.8) ∧
    (generatePrintOps m d imgW imgH).countP isEncodeOp = 1 := by
  refine ⟨rfl, ?_, ?_⟩
  · simp only [generatePrintOps]
    rw [List.getLast?_concat]
  · simp only [generatePrintOps, List.countP_append]
    have hbody : (printBodyOps m d imgW imgH).countP isEncodeOp = 0 := by
      simp [printBodyOps, List.countP_cons, isEncodeOp]
    have htext : (printTextBlockOps m d).countP isEncodeOp = 0 := by
      rw [printTextBlockOps]
      split
      · rfl
      · rw [List.countP_append, List.countP_append, countP_encode_textOps]
        simp [List.countP_cons, isEncodeOp]
    rw [hbody, htext]
    simp [List.countP_cons, isEncodeOp]

/-- No text-layer trace contains a clip operation. -/
theorem clipPath_not_mem_textOps (p : List PathCmd) (c : ℚ × ℚ)
    (ts : List TextElement) :
    DrawOp.clipPath p ∉ (ts.map (textLayerOps c)).flatten := by
  induction ts with
  | nil => simp
  | cons t ts ih => simp [textLayerOps, ih]

/-- No text-layer trace contains a path-fill operation. -/
theorem fillPathOp_not_mem_textOps (p : List PathCmd) (c : ℚ × ℚ)
    (ts : List TextElement) :
    DrawOp.fillPathOp p ∉ (ts.map (textLayerOps c)).flatten := by
  induction ts with
  | nil => simp
  | cons t ts ih => simp [textLayerOps, ih]

/-- Every clip in the compositor's trace clips to the outline path. -/
theorem clipPath_mem_print (m : PhoneModel) (d : DesignState) (imgW imgH : ℚ)
    (p : List PathCmd) (hp : DrawOp.clipPath p ∈ generatePrintOps m d imgW imgH) :
    p = m.svgPath := by
  simp only [generatePrintOps, List.mem_append] at hp
  rcases hp with (hp | hp) | hp
  · simp [printBodyOps] at hp
    exact hp
  · rw [printTextBlockOps] at hp
    split at hp
    · simp at hp
    · simp [clipPath_not_mem_textOps p _ d.textElements] at hp
      exact hp
  · simp at hp

/-- The compositor's trace contains no path-fill operation at all. -/
theorem fillPathOp_not_mem_print (m : PhoneModel) (d : DesignState)
    (imgW imgH : ℚ) (p : List PathCmd) :
    DrawOp.fillPathOp p ∉ generatePrintOps m d imgW imgH := by
  intro hp
  simp only [generatePrintOps, List.mem_append] at hp
  rcases hp with (hp | hp) | hp
  · simp [printBodyOps] at hp
  · rw [printTextBlockOps] at hp
    split at hp
    · simp at hp
    · simp [fillPathOp_not_mem_textOps p _ d.textElements] at hp
  · simp at hp

/-- **C8 (amended).** The compositor never clips against the cutout path
(its only clip region is the outline path) and never draws the cutout
into the raster at all; the cutout is drawn opaque on top of the image
and text layers only by the on-screen editor overlay. -/
theorem cutout_never_clipped_drawn_only_on_screen (m : PhoneModel)
    (d : DesignState) (imgW imgH : ℚ) :
    (∀ p : List PathCmd,
        DrawOp.clipPath p ∈ generatePrintOps m d imgW imgH → p = m.svgPath) ∧
    (∀ p : List PathCmd,
        DrawOp.fillPathOp p ∉ generatePrintOps m d imgW imgH) ∧
    DrawOp.fillPathOp m.cameraPath ∈ editorOverlayOps m := by
  refine ⟨fun p hp => clipPath_mem_print m d imgW imgH p hp,
    fun p => fillPathOp_not_mem_print m d imgW imgH p, ?_⟩
  simp [editorOverlayOps]

/-- Counterexample for C8 as stated: for a concrete model with a
non-empty cutout path and a design with image and text layers, the
compositor's trace never draws the cutout path — it is not drawn opaque
on top of the raster. -/
theorem cutout_not_drawn_in_print_cex :
    sampleModel.cameraPath ≠ [] ∧
    DrawOp.fillPathOp sampleModel.cameraPath ∉
      generatePrintOps sampleModel sampleDesign 400 300 := by
  constructor
  · simp [sampleModel, circleB, mkCircle, shapeToPath]
  · exact fillPathOp_not_mem_print sampleModel sampleDesign 400 300 _

/-- Witness for C8 (amended), at the concrete sample model and design:
the trace does contain a clip (of the outline), that clip is the outline
path, no path fill occurs in the trace, and the editor overlay fills the
cutout. -/
theorem cutout_never_clipped_witness :
    (DrawOp.clipPath sampleModel.svgPath ∈
        generatePrintOps sampleModel sampleDesign 400 300 ∧
      sampleModel.svgPath = sampleModel.svgPath) ∧
    (DrawOp.fillPathOp sampleModel.svgPath ∉
      generatePrintOps sampleModel sampleDesign 400 300) ∧
    DrawOp.fillPathOp sampleModel.cameraPath ∈ editorOverlayOps sampleModel :=
  ⟨⟨by simp [generatePrintOps, printBodyOps],
    (cutout_never_clipped_drawn_only_on_screen sampleModel sampleDesign 400 300).1
      sampleModel.svgPath (by simp [generatePrintOps, printBodyOps])⟩,
   (cutout_never_clipped_drawn_only_on_screen sampleModel sampleDesign 400 300).2.1 _,
   (cutout_never_clipped_drawn_only_on_screen sampleModel sampleDesign 400 300).2.2⟩

/-- Applying a single interactive zoom event always lands the scale in
`[0.1, 10]`, by the clamp in `handleWheel` and `handleTouchMove`. -/
theorem applyZoom_scale_mem (d : DesignState) (op : ZoomOp) :
    0.1 ≤ (applyZoom d op).scale ∧ (applyZoom d op).scale ≤ 10 := by
  cases op with
  | wheel ctrlOrMeta deltaY =>
    exact ⟨le_max_left _ _, max_le (by norm_num) (min_le_left _ _)⟩
  | pinch s c i =>
    exact ⟨le_max_left _ _, max_le (by norm_num) (min_le_left _ _)⟩

/-- **C10.** After any non-empty sequence of interactive zoom operations
(mouse-wheel zoom or two-finger pinch zoom), from any starting design,
the image scale lies in the closed interval `[0.1, 10]`. -/
theorem interactive_zoom_scale_clamped (d : DesignState) (ops : List ZoomOp)
    (h : ops ≠ []) :
    0.1 ≤ (applyZoomOps d ops).scale ∧ (applyZoomOps d ops).scale ≤ 10 := by
  induction ops generalizing d with
  | nil => exact absurd rfl h
  | cons op rest ih =>
    rw [applyZoomOps, List.foldl_cons]
    rcases rest with _ | ⟨op2, rest2⟩
    · exact applyZoom_scale_mem d op
    · exact ih (applyZoom d op) (by simp)

/-- Witness for C10: one un-modified wheel tick from a design whose scale
starts far outside the range (`50`) clamps back into `[0.1, 10]`. -/
theorem interactive_zoom_scale_clamped_witness :
    ([ZoomOp.wheel false 1] ≠ ([] : List ZoomOp)) ∧
    (0.1 ≤ (applyZoomOps sampleDesign [ZoomOp.wheel false 1]).scale ∧
      (applyZoomOps sampleDesign [ZoomOp.wheel false 1]).scale ≤ 10) :=
  ⟨by simp, interactive_zoom_scale_clamped sampleDesign [ZoomOp.wheel false 1] (by simp)⟩

/-- The candidate loop of the classifier computes the first candidate
colour that matches any class. -/
theorem colorTypeOfCandidates_eq_findSome (cands : List String) :
    colorTypeOfCandidates cands =
      (cands.findSome? matchOfColor).getD ColorType.unknown := by
  induction cands with
  | nil => rfl
  | cons c rest ih =>
    rw [colorTypeOfCandidates]
    by_cases hskip : c = "" ∨ c = "none" ∨ c = "transparent"
    · rw [if_pos hskip, ih, List.findSome?_cons]
      have hnone : matchOfColor c = none := by
        rcases hskip with rfl | rfl | rfl <;> rfl
      rw [hnone]
    · rw [if_neg hskip, List.findSome?_cons]
      cases hp : parseRGB c with
      | none =>
        rw [ih]
        simp [matchOfColor, hp]
      | some rgb =>
        cases hcl : classOfRGB rgb with
        | none =>
          rw [ih]
          simp [matchOfColor, hp, hcl]
        | some t =>
          simp [matchOfColor, hp, hcl]

/-- The classifier's verdict on one shape is the first of its fill and
stroke colours that matches any class, `unknown` when neither does. -/
theorem getShapeColorType_eq_firstMatch (el : SVGElem) :
    getShapeColorType el =
      (optOr (matchOfColor el.fill) (matchOfColor el.stroke)).getD
        ColorType.unknown := by
  rw [getShapeColorType, colorTypeOfCandidates_eq_findSome]
  cases hf : matchOfColor el.fill with
  | some t => simp [List.findSome?_cons, hf, optOr]
  | none =>
    cases hs : matchOfColor el.stroke with
    | some t => simp [List.findSome?_cons, hf, hs, optOr]
    | none => simp [List.findSome?_cons, hf, hs, optOr]

/-- **C7.** Classification checks both fill and stroke, the first colour
in `{fill, stroke}` that matches any class winning; a class shape whose
only matching colour is its stroke (`fill="none"`) is still classified by
its stroke; and shapes matching no class are ignored by the classifier
rather than treated as errors — removing such a shape from the document
does not change the classification at all. -/
theorem classify_checks_fill_then_stroke :
    (∀ el : SVGElem,
        getShapeColorType el =
          (optOr (matchOfColor el.fill) (matchOfColor el.stroke)).getD
            ColorType.unknown) ∧
    (∀ (el : SVGElem) (c : ColorType),
        el.fill = "none" → matchOfColor el.stroke = some c →
        getShapeColorType el = c) ∧
    (∀ (pre post : List SVGElem) (el : SVGElem),
        getShapeColorType el = ColorType.unknown →
        classifyShapes (pre ++ el :: post) = classifyShapes (pre ++ post)) := by
  refine ⟨getShapeColorType_eq_firstMatch, ?_, ?_⟩
  · intro el c hf hs
    rw [getShapeColorType_eq_firstMatch, hf]
    have : matchOfColor "none" = none := rfl
    rw [this, hs]
    rfl
  · intro pre post el hunk
    rw [classifyShapes, classifyShapes, List.foldl_append, List.foldl_append,
      List.foldl_cons]
    have hstep : classifyStep (List.foldl classifyStep ⟨none, [], []⟩ pre) el =
        List.foldl classifyStep ⟨none, [], []⟩ pre := by
      simp [classifyStep, hunk]
    rw [hstep]

/-- Witness for C7: a stroke-only magenta shape classifies as the outline
class, and inserting a shape of unmatched colour changes nothing. -/
theorem classify_checks_fill_then_stroke_witness :
    getShapeColorType (mkRect 0 0 4 4 none none "none" "rgb(236, 0, 140)") =
      ColorType.magenta ∧
    classifyShapes [mkRect 0 0 4 4 none none "rgb(1, 2, 3)" "none", circleB] =
      classifyShapes [circleB] :=
  ⟨classify_checks_fill_then_stroke.2.1 _ ColorType.magenta rfl (by decide),
   classify_checks_fill_then_stroke.2.2 []
     [circleB] (mkRect 0 0 4 4 none none "rgb(1, 2, 3)" "none") (by decide)⟩

end CaseCraft
